import Mathlib

/-
Verification of the projection / stereo-compositing / orientation core of the
videojs-vr plugin (blaineam/videojs-vr).

Shallow embedding conventions:
* three.js `Object3D.layers` masks are modelled as `Finset ℕ` of enabled layer
  indices (`layers.set n` = `{n}`, `layers.enable n` = insert, `disableAll` = `∅`,
  `enableAll` = all 32 layers).  In WebXR the left eye camera renders layer 1 and
  the right eye camera renders layer 2.
* The plugin instance state relevant to projection switching (the scene's movie
  screens, the `movieScreen` / `movieScreenLeft` / `movieScreenRight` fields, the
  disposal log and the current projection string) is the `PlayerState` structure;
  meshes get fresh numeric ids so that accumulation and disposal can be tracked.
* Real-valued sensor math (`Quat2Angle`, the orientation offset and the per-tick
  update) is embedded over `ℝ`, with `jsAtan2` the case-split definition of
  JavaScript's `Math.atan2` (the `-0` corner of atan2 does not arise here).
* The EAC continuity-correction UV loop of `makeScreen` is embedded over `ℚ`
  (the UV corner tables are exact rationals).
* For the divide-by-zero claim, JavaScript IEEE-754 arithmetic is modelled by
  `JSNum` (finite rational, NaN, +Infinity, -Infinity) with JavaScript's total
  division; rounding is irrelevant to the finiteness properties proved here.
* `utils.getInternalProjectionName` / `utils.validProjections` live in
  `src/utils.js`, which is not part of the provided sources; they are modelled
  from the spec (see the doc comment on `getInternalProjectionName`).
-/

namespace VideojsVR

/-! ## three.js layer masks -/

/-- `Object3D.layers.set n`: clear the mask, then enable layer `n`. -/
def layersSet (n : ℕ) : Finset ℕ := {n}

/-- `Object3D.layers.enable n`: enable layer `n`, keeping the rest. -/
def layersEnable (mask : Finset ℕ) (n : ℕ) : Finset ℕ := insert n mask

/-- `Object3D.layers.disableAll()`: empty mask. -/
def layersDisableAll : Finset ℕ := ∅

/-- `Object3D.layers.enableAll()`: all 32 layers of a three.js layer mask. -/
def layersEnableAll : Finset ℕ := Finset.range 32

/-- A mesh is visible to the left eye camera iff layer 1 is enabled,
and to the right eye camera iff layer 2 is enabled. -/
def visibleBothEyes (mask : Finset ℕ) : Prop := 1 ∈ mask ∧ 2 ∈ mask

/-- Visible to neither eye camera: neither eye layer is enabled. -/
def hiddenFromBothEyes (mask : Finset ℕ) : Prop := 1 ∉ mask ∧ 2 ∉ mask

/-! ## Screen surface sets and the force-mono paths -/

/-- The movie-screen set currently referenced by the plugin: either no screens,
a single mono-capable screen, or a left/right stereo pair.  Only the layer
masks are tracked here (the force-mono code mutates nothing else). -/
inductive ScreenSet where
  | noScreens : ScreenSet
  | single (mask : Finset ℕ) : ScreenSet
  | pair (leftMask rightMask : Finset ℕ) : ScreenSet
deriving DecidableEq

/-- The `onForceMonoToggle` callback (plugin source, registered with the VR
HUD): with a left/right pair and `enabled`, the left mesh gets
`layers.set(1); layers.enable(2)` and the right mesh gets
`layers.disableAll()`; with `enabled` false the pair is restored to layers
`{1}` / `{2}`; a single movie screen gets `layers.enableAll()`. -/
def onForceMonoToggle (enabled : Bool) (s : ScreenSet) : ScreenSet :=
  match s with
  | .pair _ _ =>
    if enabled then
      .pair (layersEnable (layersSet 1) 2) layersDisableAll
    else
      .pair (layersEnable layersDisableAll 1) (layersEnable layersDisableAll 2)
  | .single _ => .single layersEnableAll
  | .noScreens => .noScreens

/-- `applyForceMonoProjection_` (plugin source): the reapplication path used
after a projection rebuild.  With a pair and the flag on, the left mesh gets
`layers.set(1); layers.enable(2)` and the right mesh gets `layers.set(0)`
(default layer only); with the flag off the pair is restored to `{1}` / `{2}`;
a single movie screen gets `layers.set(0); enable(1); enable(2)` in both
branches. -/
def applyForceMonoProjection_ (forceMonoEnabled : Bool) (s : ScreenSet) : ScreenSet :=
  match s with
  | .pair _ _ =>
    if forceMonoEnabled then
      .pair (layersEnable (layersSet 1) 2) (layersSet 0)
    else
      .pair (layersSet 1) (layersSet 2)
  | .single _ => .single (layersEnable (layersEnable (layersSet 0) 1) 2)
  | .noScreens => .noScreens

/-! ## Projection names and the scene bookkeeping of `changeProjection_` -/

/-- Modelled from the spec: `utils.getInternalProjectionName` together with
`utils.validProjections` (the file `src/utils.js` is not among the provided
sources; only its callers are).  Spec §6: the projection kind identifiers are
exactly `NONE, AUTO, 360/Sphere/equirectangular, 360_LR, 360_TB,
Cube/360_CUBE, 180, 180_LR, 180_TB, 180_MONO, EAC, EAC_LR, SBS_MONO`;
unrecognized identifiers are rejected (mapped to `none` here, i.e. a falsy
return in JavaScript). -/
def projectionAliases : List (String × String) :=
  [("NONE", "NONE"), ("AUTO", "AUTO"),
   ("360", "360"), ("Sphere", "360"), ("equirectangular", "360"),
   ("360_LR", "360_LR"), ("360_TB", "360_TB"),
   ("Cube", "360_CUBE"), ("360_CUBE", "360_CUBE"),
   ("180", "180"), ("180_LR", "180_LR"), ("180_TB", "180_TB"),
   ("180_MONO", "180_MONO"),
   ("EAC", "EAC"), ("EAC_LR", "EAC_LR"), ("SBS_MONO", "SBS_MONO")]

/-- Modelled from the spec: lookup of the internal projection name (see
`projectionAliases`). -/
def getInternalProjectionName (p : String) : Option String :=
  (projectionAliases.find? (fun pr => pr.1 == p)).map Prod.snd

/-- A movie-screen mesh: a fresh id plus whether its material is the EAC
`ShaderMaterial` (whose `.map` is NOT the video texture, unlike the
`MeshBasicMaterial` screens built with `map: this.videoTexture`). -/
structure Mesh where
  meshId : ℕ
  shaderMat : Bool
deriving DecidableEq

/-- The plugin-instance state that projection switching manipulates.
`scene` holds the attached movie-screen meshes (HUD/gallery objects are not
movie screens and are not modelled); `disposedGeometry` / `disposedMaterial`
log the mesh ids whose `geometry.dispose()` / `material.dispose()` ran. -/
structure PlayerState where
  scene : List Mesh
  movieScreen : Option Mesh
  movieScreenLeft : Option Mesh
  movieScreenRight : Option Mesh
  nextId : ℕ
  disposedGeometry : List ℕ
  disposedMaterial : List ℕ
  currentProjection : String
  defaultProjection : String
  warned : Bool
  xrPresenting : Bool
  mediainfo : Option String
deriving DecidableEq

/-- The fresh plugin state: empty scene, no screen references. -/
def initState : PlayerState :=
  { scene := [], movieScreen := none, movieScreenLeft := none,
    movieScreenRight := none, nextId := 0, disposedGeometry := [],
    disposedMaterial := [], currentProjection := "NONE",
    defaultProjection := "NONE", warned := false, xrPresenting := false,
    mediainfo := none }

/-- The preamble of `changeProjection_`: `this.scene.remove(this.movieScreen)`
plus removal of `movieScreenLeft` / `movieScreenRight` when set, nulling the
left/right references (the `movieScreen` reference itself is kept). -/
def removeMovieScreens (s : PlayerState) : PlayerState :=
  { s with
    scene := s.scene.filter (fun m =>
      !(s.movieScreen == some m || s.movieScreenLeft == some m ||
        s.movieScreenRight == some m)),
    movieScreenLeft := none,
    movieScreenRight := none }

/-- What a `changeProjection_` build branch creates: nothing, one mesh
(`movieScreen` gets it) or a left/right pair (`movieScreenLeft` /
`movieScreenRight` get them and `movieScreen` is set to the left one). -/
inductive BuildPlan where
  | nothing : BuildPlan
  | mono (shader : Bool) : BuildPlan
  | stereo (shader : Bool) : BuildPlan
deriving DecidableEq

/-- The build branch selected by `changeProjection_` for each internal
projection name (current plugin version): `360`, `360_CUBE` and `180_MONO`
build one basic-material mesh; `360_LR`/`360_TB` and `180`/`180_LR` build a
basic-material pair; `EAC` builds one shader-material mesh and `EAC_LR` a
shader-material pair; `SBS_MONO` builds a pair inside WebXR and a single plane
otherwise.  Every other name — including `NONE` and `180_TB`, for which the
current version has no branch — builds nothing. -/
def buildPlanFor (kind : String) (xr : Bool) : BuildPlan :=
  if kind = "360" then .mono false
  else if kind = "360_LR" ∨ kind = "360_TB" then .stereo false
  else if kind = "360_CUBE" then .mono false
  else if kind = "180_MONO" then .mono false
  else if kind = "180" ∨ kind = "180_LR" then .stereo false
  else if kind = "EAC" then .mono true
  else if kind = "EAC_LR" then .stereo true
  else if kind = "SBS_MONO" then (if xr then .stereo false else .mono false)
  else .nothing

/-- Execute a build plan: create fresh meshes, add them to the scene and set
the screen references, exactly as the build branches of `changeProjection_`
do. -/
def applyBuild (plan : BuildPlan) (s : PlayerState) : PlayerState :=
  match plan with
  | .nothing => s
  | .mono sh =>
    let m : Mesh := ⟨s.nextId, sh⟩
    { s with
      scene := s.scene ++ [m],
      movieScreen := some m,
      nextId := s.nextId + 1 }
  | .stereo sh =>
    let l : Mesh := ⟨s.nextId, sh⟩
    let r : Mesh := ⟨s.nextId + 1, sh⟩
    { s with
      scene := s.scene ++ [l, r],
      movieScreenLeft := some l,
      movieScreenRight := some r,
      movieScreen := some l,
      nextId := s.nextId + 2 }

/-- The argument of the recursive call made by the `AUTO` branch of
`changeProjection_`: when `player.mediainfo.projection` is a truthy string
other than `'AUTO'`, the call receives `getInternalProjectionName(hint)`
(possibly `undefined`); otherwise it receives the literal `'NONE'`. -/
def autoArg (mediainfo : Option String) : Option String :=
  match mediainfo with
  | some hint =>
    if hint ≠ "" ∧ hint ≠ "AUTO" then getInternalProjectionName hint
    else some "NONE"
  | none => some "NONE"

/-- Normalization at the top of `changeProjection_`:
`projection = utils.getInternalProjectionName(projection);
if (!projection) projection = 'NONE';`. -/
def normalizeProjection (p : Option String) : String :=
  (p.bind getInternalProjectionName).getD "NONE"

/-- `changeProjection_` with explicit fuel for its `AUTO` recursion: normalize
the argument, remove the previous movie screens from the scene, then either
recurse (the `AUTO` case; `none` is returned when the fuel runs out, which
never happens — see the termination theorem) or run the selected build branch
and record the new current projection.  No geometry or material is disposed
anywhere in this function. -/
def changeProjectionRec : ℕ → Option String → PlayerState → Option PlayerState
  | fuel, proj, s =>
    let p := normalizeProjection proj
    let s1 := removeMovieScreens s
    if p = "AUTO" then
      match fuel with
      | 0 => none
      | f + 1 => changeProjectionRec f (autoArg s.mediainfo) s1
    else
      let s2 := applyBuild (buildPlanFor p s.xrPresenting) s1
      some { s2 with currentProjection := p }

/-- `changeProjection_(projection)`: fuel 2 suffices for every input (proved
below). -/
def changeProjection_ (p : String) (s : PlayerState) : Option PlayerState :=
  changeProjectionRec 2 (some p) s

/-- `scene.add(mesh)` in three.js re-parents: an object already attached is
removed from its parent first, so re-adding moves it to the end without
duplicating it. -/
def sceneAdd (m : Mesh) (scene : List Mesh) : List Mesh :=
  scene.filter (fun x => !(x == m)) ++ [m]

/-- The XR-session branch of `setProjection`: `scene.traverse` collects every
mesh whose `material.map === this.videoTexture` (the EAC `ShaderMaterial`
meshes have no `.map` and are skipped), removes it from the scene and disposes
its geometry and material. -/
def disposeVideoMeshes (s : PlayerState) : PlayerState :=
  let victims := s.scene.filter (fun m => !m.shaderMat)
  { s with
    scene := s.scene.filter (fun m => m.shaderMat),
    disposedGeometry := s.disposedGeometry ++ victims.map Mesh.meshId,
    disposedMaterial := s.disposedMaterial ++ victims.map Mesh.meshId }

/-- `setProjection(projection)` (plugin source): an unrecognized identifier
logs an error (`warned`) and returns with the state otherwise unchanged; a
recognized one records the new current/default projection and, only while an
XR session is presenting, disposes the video-texture meshes, rebuilds via
`changeProjection_` and re-adds `this.movieScreen` to the scene.  (The
force-mono reapplication and the HUD/gallery refresh that follow do not touch
the fields modelled here unless the flag is set; they are covered by
`applyForceMonoProjection_` above.) -/
def setProjection (p : String) (s : PlayerState) : PlayerState :=
  match getInternalProjectionName p with
  | none => { s with warned := true }
  | some _ =>
    let s1 := { s with currentProjection := p, defaultProjection := p }
    if s1.xrPresenting then
      let s2 := disposeVideoMeshes s1
      let s3 := (changeProjection_ p s2).getD s2
      match s3.movieScreen with
      | some m => { s3 with scene := sceneAdd m s3.scene }
      | none => s3
    else s1

/-- The consistency invariant of the plugin state: every movie mesh attached
to the scene is referenced by one of the `movieScreen` fields (so the
`changeProjection_` preamble can detach it), and every attached mesh id is
below the fresh-id counter. -/
def goodState (s : PlayerState) : Prop :=
  ∀ m ∈ s.scene,
    (s.movieScreen = some m ∨ s.movieScreenLeft = some m ∨
      s.movieScreenRight = some m)
    ∧ m.meshId < s.nextId

/-- The plugin state holding one attached `360` screen, as produced by
building `360` from the initial state. -/
def afterBuild360 : PlayerState :=
  { initState with
    scene := [⟨0, false⟩],
    movieScreen := some ⟨0, false⟩,
    nextId := 1,
    currentProjection := "360" }

/-! ## Orientation offset (OrbitOrientationControls) -/

open Real in
/-- The mutable `this.orientationOffset` Euler: `x` is pitch, `y` is yaw,
`z` is roll. -/
structure Euler3 where
  x : ℝ
  y : ℝ
  z : ℝ

/-- `setOrientationOffset(euler)`: copies the given components into the
offset, with no clamping on any path. -/
def setOrientationOffset (e : Euler3) (_off : Euler3) : Euler3 := e

/-- `resetOrientationOffset()`: set the offset to `(0, 0, 0)`. -/
def resetOrientationOffset (_off : Euler3) : Euler3 := ⟨0, 0, 0⟩

/-- `adjustOrientationOffset(pitchDelta, yawDelta, rollDelta)`: add the deltas,
then clamp the pitch component to `[-π/2, π/2]` via
`Math.max(-π/2, Math.min(π/2, x))`. -/
noncomputable def adjustOrientationOffset (pitchDelta yawDelta rollDelta : ℝ)
    (off : Euler3) : Euler3 :=
  { x := max (-(Real.pi / 2)) (min (Real.pi / 2) (off.x + pitchDelta)),
    y := off.y + yawDelta,
    z := off.z + rollDelta }

/-! ## Quaternion-to-angle conversion and the per-tick update -/

/-- JavaScript's `Math.atan2(y, x)` by case split (negative zero, which cannot
arise from the inputs used here, is not modelled). -/
noncomputable def jsAtan2 (y x : ℝ) : ℝ :=
  if 0 < x then Real.arctan (y / x)
  else if x < 0 then
    (if 0 ≤ y then Real.arctan (y / x) + Real.pi
     else Real.arctan (y / x) - Real.pi)
  else
    (if 0 < y then Real.pi / 2
     else if y < 0 then -(Real.pi / 2)
     else 0)

/-- The result of `Quat2Angle`, a `THREE.Vector3` whose components are
`x` = pitch, `y` = roll, `z` = yaw (the constructor calls in the source read
`new THREE.Vector3(pitch, roll, yaw)`). -/
structure Angle3 where
  x : ℝ
  y : ℝ
  z : ℝ

/-- `Quat2Angle(x, y, z, w)` from the source: `test = x*y + z*w`; north-pole
branch for `test > 0.499` returning `(pitch, roll, yaw) = (π/2, 0,
2*atan2(x, w))`; south-pole branch for `test < -0.499` returning
`(-π/2, 0, -2*atan2(x, w))`; otherwise the general asin/atan2 formulas. -/
noncomputable def Quat2Angle (x y z w : ℝ) : Angle3 :=
  let test := x * y + z * w
  if 0.499 < test then
    ⟨Real.pi / 2, 0, 2 * jsAtan2 x w⟩
  else if test < -0.499 then
    ⟨-(Real.pi / 2), 0, -2 * jsAtan2 x w⟩
  else
    ⟨Real.arcsin (2 * test),
     jsAtan2 (2 * x * w - 2 * y * z) (1 - 2 * (x * x) - 2 * (z * z)),
     jsAtan2 (2 * y * w - 2 * x * z) (1 - 2 * (y * y) - 2 * (z * z))⟩

/-- What one `update()` tick feeds into the orbit controller and stores. -/
structure UpdateOutcome where
  rotateLeftArg : ℝ
  rotateUpArg : ℝ
  lastAngle : Angle3

/-- The sensor part of `OrbitOrientationControls.update()`: convert the sensor
quaternion to angles, set `lastAngle_` to the current angles when it is
still undefined, call `orbit.rotateLeft((lastAngle_.z - currentAngle.z) * (1 +
speed))` and `orbit.rotateUp((lastAngle_.y - currentAngle.y) * (1 + speed))`,
then store the current angles as `lastAngle_`. -/
noncomputable def controlsUpdate (speed : ℝ) (lastAngle : Option Angle3)
    (qx qy qz qw : ℝ) : UpdateOutcome :=
  let currentAngle := Quat2Angle qx qy qz qw
  let last := lastAngle.getD currentAngle
  { rotateLeftArg := (last.z - currentAngle.z) * (1 + speed),
    rotateUpArg := (last.y - currentAngle.y) * (1 + speed),
    lastAngle := currentAngle }

/-! ## The EAC continuity-correction UV adjustment (`makeScreen`) -/

/-- `contCorrect`, the 2-texel continuity-correction margin of `makeScreen`. -/
def contCorrect : ℚ := 2

/-- `Number.EPSILON` (2⁻⁵²), the tolerance of the edge comparisons. -/
def jsEpsilon : ℚ := 1 / 2 ^ 52

/-- A `THREE.Vector2` UV corner. -/
structure Vec2 where
  x : ℚ
  y : ℚ
deriving DecidableEq

/-- The `right` face UV quad of the EAC layout in `makeScreen`. -/
def eacRight : List Vec2 := [⟨0, 1/2⟩, ⟨1/3, 1/2⟩, ⟨1/3, 1⟩, ⟨0, 1⟩]

/-- The `front` face UV quad. -/
def eacFront : List Vec2 := [⟨1/3, 1/2⟩, ⟨2/3, 1/2⟩, ⟨2/3, 1⟩, ⟨1/3, 1⟩]

/-- The `left` face UV quad. -/
def eacLeft : List Vec2 := [⟨2/3, 1/2⟩, ⟨1, 1/2⟩, ⟨1, 1⟩, ⟨2/3, 1⟩]

/-- The `bottom` face UV quad. -/
def eacBottom : List Vec2 := [⟨1/3, 0⟩, ⟨1/3, 1/2⟩, ⟨0, 1/2⟩, ⟨0, 0⟩]

/-- The `back` face UV quad. -/
def eacBack : List Vec2 := [⟨1/3, 1/2⟩, ⟨1/3, 0⟩, ⟨2/3, 0⟩, ⟨2/3, 1/2⟩]

/-- The `top` face UV quad. -/
def eacTop : List Vec2 := [⟨1, 0⟩, ⟨1, 1/2⟩, ⟨2/3, 1/2⟩, ⟨2/3, 0⟩]

/-- The `[right, front, left, bottom, back, top]` iteration order of the
continuity-correction loop in `makeScreen`. -/
def eacFaces : List (List Vec2) :=
  [eacRight, eacFront, eacLeft, eacBottom, eacBack, eacTop]

/-- The first loop of the correction: `let lowY = 1`, lowered to any smaller
vertex `y`. -/
def lowYOf (face : List Vec2) : ℚ :=
  face.foldl (fun acc v => if v.y < acc then v.y else acc) 1

/-- The first loop of the correction: `let highY = 0`, raised to any larger
vertex `y`. -/
def highYOf (face : List Vec2) : ℚ :=
  face.foldl (fun acc v => if acc < v.y then v.y else acc) 0

/-- The second loop of the correction, per vertex: move a vertex on the lowest
edge up by `contCorrect / height`, then (testing the possibly updated `y`
against `highY`) move a vertex on the highest edge down by the same amount;
finally apply the `x` rescaling
`x = x / height * (height - contCorrect*2) + contCorrect / height`. -/
def adjustVertex (height lowY highY : ℚ) (v : Vec2) : Vec2 :=
  let y1 := if |v.y - lowY| < jsEpsilon then v.y + contCorrect / height else v.y
  let y2 := if |y1 - highY| < jsEpsilon then y1 - contCorrect / height else y1
  { x := v.x / height * (height - contCorrect * 2) + contCorrect / height,
    y := y2 }

/-- The whole continuity correction for one face: compute `lowY` / `highY`
from the original corners, then adjust every corner. -/
def adjustFace (height : ℚ) (face : List Vec2) : List Vec2 :=
  face.map (adjustVertex height (lowYOf face) (highYOf face))

/-! ## JavaScript IEEE-754 arithmetic for the divide-by-zero claim -/

/-- A JavaScript number: finite (exact rational — rounding does not affect the
finiteness facts proved here), NaN, or a signed infinity.  JavaScript numeric
operations never throw; division is total. -/
inductive JSNum where
  | num : ℚ → JSNum
  | nan : JSNum
  | posInf : JSNum
  | negInf : JSNum
deriving DecidableEq

namespace JSNum

/-- Finiteness test. -/
def isFinite : JSNum → Bool
  | num _ => true
  | _ => false

/-- JavaScript addition. -/
def add : JSNum → JSNum → JSNum
  | nan, _ => nan
  | _, nan => nan
  | posInf, negInf => nan
  | negInf, posInf => nan
  | posInf, _ => posInf
  | _, posInf => posInf
  | negInf, _ => negInf
  | _, negInf => negInf
  | num a, num b => num (a + b)

/-- JavaScript negation. -/
def neg : JSNum → JSNum
  | nan => nan
  | posInf => negInf
  | negInf => posInf
  | num a => num (-a)

/-- JavaScript subtraction. -/
def sub (a b : JSNum) : JSNum := add a (neg b)

/-- JavaScript multiplication. -/
def mul : JSNum → JSNum → JSNum
  | nan, _ => nan
  | _, nan => nan
  | posInf, posInf => posInf
  | posInf, negInf => negInf
  | negInf, posInf => negInf
  | negInf, negInf => posInf
  | posInf, num b => if 0 < b then posInf else if b < 0 then negInf else nan
  | negInf, num b => if 0 < b then negInf else if b < 0 then posInf else nan
  | num a, posInf => if 0 < a then posInf else if a < 0 then negInf else nan
  | num a, negInf => if 0 < a then negInf else if a < 0 then posInf else nan
  | num a, num b => num (a * b)

/-- JavaScript division: total, with `x / 0` giving a signed infinity for
`x ≠ 0` and NaN for `0 / 0` (`-0` divisors are not modelled: the source
divides by pixel dimensions and aspect values, never by a negative zero). -/
def div : JSNum → JSNum → JSNum
  | nan, _ => nan
  | _, nan => nan
  | posInf, posInf => nan
  | posInf, negInf => nan
  | negInf, posInf => nan
  | negInf, negInf => nan
  | posInf, num b => if 0 ≤ b then posInf else negInf
  | negInf, num b => if 0 ≤ b then negInf else posInf
  | num _, posInf => num 0
  | num _, negInf => num 0
  | num a, num b =>
    if b = 0 then
      (if 0 < a then posInf else if a < 0 then negInf else nan)
    else num (a / b)

/-- JavaScript `<`: false whenever an operand is NaN. -/
def ltb : JSNum → JSNum → Bool
  | nan, _ => false
  | _, nan => false
  | negInf, negInf => false
  | negInf, _ => true
  | _, negInf => false
  | posInf, _ => false
  | _, posInf => true
  | num a, num b => decide (a < b)

/-- JavaScript `Math.abs`. -/
def absJS : JSNum → JSNum
  | nan => nan
  | posInf => posInf
  | negInf => posInf
  | num a => num |a|

instance : Add JSNum := ⟨add⟩

instance : Sub JSNum := ⟨sub⟩

instance : Mul JSNum := ⟨mul⟩

instance : Div JSNum := ⟨div⟩

end JSNum

/-- The EAC UV corner tables as JavaScript numbers. -/
def eacFacesJS : List (List (JSNum × JSNum)) :=
  eacFaces.map (fun face => face.map (fun v => (JSNum.num v.x, JSNum.num v.y)))

/-- The `right` face UV quad as JavaScript numbers. -/
def eacRightJS : List (JSNum × JSNum) :=
  eacRight.map (fun v => (JSNum.num v.x, JSNum.num v.y))

/-- `lowY` of the correction loop, in JavaScript arithmetic. -/
def lowYJS (face : List (JSNum × JSNum)) : JSNum :=
  face.foldl (fun acc v => if JSNum.ltb v.2 acc then v.2 else acc) (JSNum.num 1)

/-- `highY` of the correction loop, in JavaScript arithmetic. -/
def highYJS (face : List (JSNum × JSNum)) : JSNum :=
  face.foldl (fun acc v => if JSNum.ltb acc v.2 then v.2 else acc) (JSNum.num 0)

/-- One vertex of the correction loop, in JavaScript arithmetic (`height` is
`this.videoTexture.image.videoHeight`, which may be zero or negative here). -/
def adjustVertexJS (height lowY highY : JSNum) (v : JSNum × JSNum) :
    JSNum × JSNum :=
  let c : JSNum := JSNum.num contCorrect
  let eps : JSNum := JSNum.num jsEpsilon
  let y1 := if JSNum.ltb (JSNum.absJS (v.2 - lowY)) eps then v.2 + c / height else v.2
  let y2 := if JSNum.ltb (JSNum.absJS (y1 - highY)) eps then y1 - c / height else y1
  (v.1 / height * (height - c * JSNum.num 2) + c / height, y2)

/-- The whole face correction, in JavaScript arithmetic. -/
def adjustFaceJS (height : JSNum) (face : List (JSNum × JSNum)) :
    List (JSNum × JSNum) :=
  face.map (adjustVertexJS height (lowYJS face) (highYJS face))

/-- The `SBS_MONO` aspect-fit math of `changeProjection_`, in JavaScript
arithmetic: `videoWidth = video.videoWidth / 2`, `videoAspect = videoWidth /
videoHeight`, viewport of height `2 * distance * tan(fov/2)` and width
`viewportHeight * aspect` at `distance = 3`, then fit the plane inside the
viewport preserving the aspect ratio.  `tanHalfFov` stands for the value
`Math.tan(fov / 2)` and `aspect` for `this.camera.aspect` (both finite
JavaScript numbers).  Returns `(planeWidth, planeHeight)`. -/
def sbsPlaneSize (videoWidthFull videoHeight tanHalfFov aspect : JSNum) :
    JSNum × JSNum :=
  let videoWidth := videoWidthFull / JSNum.num 2
  let videoAspect := videoWidth / videoHeight
  let distance : JSNum := JSNum.num 3
  let viewportHeight := JSNum.num 2 * distance * tanHalfFov
  let viewportWidth := viewportHeight * aspect
  let viewportAspect := viewportWidth / viewportHeight
  if JSNum.ltb viewportAspect videoAspect then
    (viewportWidth, viewportWidth / videoAspect)
  else
    (viewportHeight * videoAspect, viewportHeight)

/-! ## Theorems -/

/-- C1, counterexample.  The claim says that on EVERY path applying the
force-mono flag the right surface becomes visible to no camera layer at all;
but on the reapplication path (`applyForceMonoProjection_`, the path run after
a rebuild) the right mesh is set to `layers.set(0)`: the default layer 0 stays
enabled, unlike the `layers.disableAll()` of the toggle path. -/
theorem applyForceMono_right_layer0_cex :
    applyForceMonoProjection_ true (ScreenSet.pair (layersSet 1) (layersSet 2))
      = ScreenSet.pair {1, 2} {0}
    ∧ (0 ∈ ({0} : Finset ℕ))
    ∧ ({0} : Finset ℕ) ≠ layersDisableAll := by
  refine ⟨?_, Finset.mem_singleton_self 0, ?_⟩
  · simp only [applyForceMonoProjection_, if_pos, layersEnable, layersSet]
    rw [Finset.pair_comm]
  · simp only [layersDisableAll]
    exact Finset.singleton_ne_empty 0

/-- C1, amended.  On both paths that apply the force-mono flag (the HUD toggle
`onForceMonoToggle` and the post-rebuild reapplication
`applyForceMonoProjection_`), enabling force mono on a left/right pair makes
the left mask visible to both eyes and the right mask visible to neither eye
layer; the toggle path clears the right mask entirely while the reapplication
path leaves it on the default layer 0 only.  On a single mono surface both
paths keep the mask visible to both eyes. -/
theorem forceMono_eye_masks (l r m : Finset ℕ) :
    (onForceMonoToggle true (ScreenSet.pair l r)
        = ScreenSet.pair {1, 2} layersDisableAll
      ∧ visibleBothEyes {1, 2} ∧ hiddenFromBothEyes layersDisableAll)
    ∧ (applyForceMonoProjection_ true (ScreenSet.pair l r)
        = ScreenSet.pair {1, 2} {0}
      ∧ hiddenFromBothEyes {0})
    ∧ (onForceMonoToggle true (ScreenSet.single m)
        = ScreenSet.single layersEnableAll
      ∧ visibleBothEyes layersEnableAll)
    ∧ (applyForceMonoProjection_ true (ScreenSet.single m)
        = ScreenSet.single {0, 1, 2}
      ∧ visibleBothEyes {0, 1, 2}) := by
  have h12 : (insert 2 {1} : Finset ℕ) = {1, 2} := Finset.pair_comm 2 1
  have h012 : (insert 2 (insert 1 {0}) : Finset ℕ) = {0, 1, 2} := by
    ext n; simp; tauto
  refine ⟨⟨?_, ?_, ?_⟩, ⟨?_, ?_⟩, ⟨?_, ?_⟩, ⟨?_, ?_⟩⟩
  · simp only [onForceMonoToggle, if_pos, layersEnable, layersSet, h12]
  · exact ⟨by simp, by simp⟩
  · simp [hiddenFromBothEyes, layersDisableAll]
  · simp only [applyForceMonoProjection_, if_pos, layersEnable, layersSet, h12]
  · refine ⟨?_, ?_⟩ <;> simp [Finset.mem_singleton]
  · rfl
  · constructor <;> simp [visibleBothEyes, layersEnableAll]
  · simp only [applyForceMonoProjection_, layersEnable, layersSet, h012]
  · exact ⟨by simp, by simp⟩

/-- C4, code bug.  `180_TB` is one of the documented projection identifiers
(spec §6, modelled by `getInternalProjectionName`), yet the current
`changeProjection_` has no `180_TB` build branch: the call attaches no screen
surface and leaves the current projection as `180_TB` instead of falling back
to `NONE` — while a sibling stereo kind such as `180_LR` builds its two
surfaces. -/
theorem changeProjection_180TB_builds_nothing :
    getInternalProjectionName "180_TB" = some "180_TB"
    ∧ (changeProjection_ "180_TB" initState).map
        (fun s => (s.scene, s.currentProjection)) = some ([], "180_TB")
    ∧ (changeProjection_ "180_LR" initState).map
        (fun s => s.scene.length) = some 2 := by
  exact ⟨rfl, rfl, rfl⟩

/-- C6, counterexample.  `setOrientationOffset` copies the given Euler without
clamping, so a single call can set the pitch component above `π/2`. -/
theorem setOrientationOffset_unclamped_cex :
    (setOrientationOffset ⟨3, 0, 0⟩ ⟨0, 0, 0⟩).x = 3
    ∧ ¬((3 : ℝ) ≤ Real.pi / 2) := by
  refine ⟨rfl, fun hle => ?_⟩
  have h4 := Real.pi_le_four
  linarith

/-- C6, amended.  The pitch clamp to `[-π/2, π/2]` holds after every
`adjustOrientationOffset` call and after every `resetOrientationOffset` call
(hence after any call sequence ending in one of them), but
`setOrientationOffset` stores its argument's pitch unclamped. -/
theorem orientationOffset_pitch_clamped (off : Euler3) (p y r : ℝ) :
    (-(Real.pi / 2) ≤ (adjustOrientationOffset p y r off).x
      ∧ (adjustOrientationOffset p y r off).x ≤ Real.pi / 2)
    ∧ ((resetOrientationOffset off).x = 0
      ∧ -(Real.pi / 2) ≤ (0 : ℝ) ∧ (0 : ℝ) ≤ Real.pi / 2)
    ∧ (∀ e : Euler3, (setOrientationOffset e off).x = e.x) := by
  have hpi := Real.pi_pos
  refine ⟨⟨?_, ?_⟩, ⟨rfl, by linarith, by linarith⟩, fun e => rfl⟩
  · exact le_max_left _ _
  · exact max_le (by linarith) (min_le_left _ _)

/-- C7, confirmed.  With an active orientation sensor, each `update()` tick
feeds `(lastAngle.z - currentAngle.z) * (1 + speed)` (the yaw difference —
`z` is the yaw slot of `Quat2Angle`) into `rotateLeft` and the `y` (roll)
difference into `rotateUp`, stores the current angles as the new last angles,
and on the first tick (no stored angles) feeds zero — never the absolute
angles. -/
theorem update_feeds_angle_deltas (speed qx qy qz qw : ℝ) (last : Angle3) :
    (controlsUpdate speed (some last) qx qy qz qw).rotateLeftArg
      = (last.z - (Quat2Angle qx qy qz qw).z) * (1 + speed)
    ∧ (controlsUpdate speed (some last) qx qy qz qw).rotateUpArg
      = (last.y - (Quat2Angle qx qy qz qw).y) * (1 + speed)
    ∧ (controlsUpdate speed (some last) qx qy qz qw).lastAngle
      = Quat2Angle qx qy qz qw
    ∧ (controlsUpdate speed none qx qy qz qw).rotateLeftArg = 0
    ∧ (controlsUpdate speed none qx qy qz qw).rotateUpArg = 0 := by
  refine ⟨rfl, rfl, rfl, ?_, ?_⟩ <;> simp [controlsUpdate]

/-- `Math.atan2(1, 0) = π/2`. -/
theorem jsAtan2_one_zero : jsAtan2 1 0 = Real.pi / 2 := by
  unfold jsAtan2
  norm_num

/-- C3, counterexample.  At the south-pole quaternion `(x, y, z, w) =
(1, -1/2, 0, 0)` (so `x·y + z·w = -1/2 < -0.499`), `Quat2Angle` returns the
yaw `-2·atan2(x, w) = -π`, not the `2·atan2(x, w) = π` stated by the claim. -/
theorem quat2Angle_south_yaw_cex :
    (Quat2Angle 1 (-(1 / 2)) 0 0).z ≠ 2 * jsAtan2 1 0 := by
  have hpi := Real.pi_pos
  unfold Quat2Angle
  rw [jsAtan2_one_zero]
  norm_num
  intro h
  linarith

/-- C3, amended.  For `x·y + z·w > 0.499` (north pole) `Quat2Angle` returns
`(pitch, roll, yaw) = (π/2, 0, 2·atan2(x, w))`; for `x·y + z·w < -0.499`
(south pole) it returns `(-π/2, 0, -2·atan2(x, w))` — with the yaw NEGATED
relative to the north-pole formula.  Both branches use only `atan2` (total in
JavaScript), performing no division. -/
theorem quat2Angle_singularity_branches (x y z w : ℝ) :
    (0.499 < x * y + z * w →
      Quat2Angle x y z w = ⟨Real.pi / 2, 0, 2 * jsAtan2 x w⟩)
    ∧ (x * y + z * w < -0.499 →
      Quat2Angle x y z w = ⟨-(Real.pi / 2), 0, -2 * jsAtan2 x w⟩) := by
  constructor <;> intro h <;> unfold Quat2Angle
  · rw [if_pos h]
  · rw [if_neg (by norm_num; linarith), if_pos h]

/-- C3, witness: the two documented singularity quaternions
(`x·y + z·w = 1/2` and `= -1/2`) take the simplified branches. -/
theorem quat2Angle_singularity_witness :
    ((0.499 : ℝ) < 1 * (1 / 2) + 0 * 0
      ∧ Quat2Angle 1 (1 / 2) 0 0 = ⟨Real.pi / 2, 0, 2 * jsAtan2 1 0⟩)
    ∧ ((1 : ℝ) * (-(1 / 2)) + 0 * 0 < -0.499
      ∧ Quat2Angle 1 (-(1 / 2)) 0 0
          = ⟨-(Real.pi / 2), 0, -2 * jsAtan2 1 0⟩) :=
  ⟨⟨by norm_num, (quat2Angle_singularity_branches 1 (1 / 2) 0 0).1 (by norm_num)⟩,
   ⟨by norm_num, (quat2Angle_singularity_branches 1 (-(1 / 2)) 0 0).2 (by norm_num)⟩⟩

/-- Only the identifier `AUTO` maps to the internal name `AUTO`. -/
theorem getInternal_auto (h : String)
    (hh : getInternalProjectionName h = some "AUTO") : h = "AUTO" := by
  unfold getInternalProjectionName at hh
  rcases Option.map_eq_some'.mp hh with ⟨pr, hfind, hsnd⟩
  have hmem := List.mem_of_find?_eq_some hfind
  have hbeq := List.find?_some hfind
  have h1 : pr.1 = h := by simpa using hbeq
  have hall : ∀ q ∈ projectionAliases, q.2 = "AUTO" → q.1 = "AUTO" := by decide
  rw [← h1]
  exact hall pr hmem hsnd

/-- Internal projection names are themselves recognized and map to
themselves. -/
theorem getInternal_self (pr : String × String)
    (hmem : pr ∈ projectionAliases) :
    getInternalProjectionName pr.2 = some pr.2 := by
  have hall : ∀ q ∈ projectionAliases,
      getInternalProjectionName q.2 = some q.2 := by decide
  exact hall pr hmem

/-- The argument the `AUTO` branch recurses on never normalizes back to
`AUTO`. -/
theorem normalize_autoArg_ne_auto (mi : Option String) :
    normalizeProjection (autoArg mi) ≠ "AUTO" := by
  cases mi with
  | none => decide
  | some hint =>
    simp only [autoArg]
    split_ifs with hcond
    · cases hg : getInternalProjectionName hint with
      | none => simp [normalizeProjection, hg]
      | some k =>
        have hk : normalizeProjection (some k) = k := by
          unfold getInternalProjectionName at hg
          rcases Option.map_eq_some'.mp hg with ⟨pr, hfind, hsnd⟩
          have hmem := List.mem_of_find?_eq_some hfind
          have := getInternal_self pr hmem
          rw [hsnd] at this
          simp [normalizeProjection, this]
        rw [hk]
        intro hauto
        rw [hauto] at hg
        exact hcond.2 (getInternal_auto hint hg)
    · decide

/-- One step of `changeProjectionRec` on a non-`AUTO` (normalized) argument:
remove the previous screens, run the build branch, record the projection. -/
theorem changeProjectionRec_some_of_ne (fuel : ℕ) (q : Option String)
    (t : PlayerState) (hq : normalizeProjection q ≠ "AUTO") :
    changeProjectionRec fuel q t
      = some { applyBuild (buildPlanFor (normalizeProjection q) t.xrPresenting)
                 (removeMovieScreens t) with
               currentProjection := normalizeProjection q } := by
  rw [changeProjectionRec.eq_def]
  simp only [if_neg hq]

/-- One step of `changeProjectionRec` on an argument normalizing to `AUTO`:
recurse on the media-info resolution with one unit of fuel consumed. -/
theorem changeProjectionRec_auto_step (f : ℕ) (q : Option String)
    (t : PlayerState) (hq : normalizeProjection q = "AUTO") :
    changeProjectionRec (f + 1) q t
      = changeProjectionRec f (autoArg t.mediainfo) (removeMovieScreens t) := by
  rw [changeProjectionRec.eq_def]
  simp only [if_pos hq]

/-- C8, confirmed.  `changeProjection_` terminates on every input: fuel 2
always suffices for `changeProjectionRec` (so the `AUTO` case recurses at most
once), because the argument the `AUTO` branch recurses on — the kind resolved
from the media-info hint, or `NONE` when no hint resolves — never normalizes
back to `AUTO`. -/
theorem changeProjection_auto_terminates (p : Option String) (s : PlayerState) :
    (changeProjectionRec 2 p s).isSome = true
    ∧ ∀ mi : Option String, normalizeProjection (autoArg mi) ≠ "AUTO" := by
  refine ⟨?_, normalize_autoArg_ne_auto⟩
  by_cases hp : normalizeProjection p = "AUTO"
  · rw [show (2 : ℕ) = 1 + 1 from rfl, changeProjectionRec_auto_step 1 p s hp,
      changeProjectionRec_some_of_ne 1 _ _
        (normalize_autoArg_ne_auto s.mediainfo)]
    rfl
  · rw [changeProjectionRec_some_of_ne 2 p s hp]
    rfl

/-- C5, counterexample.  `setProjection` with the unrecognized identifier
`FOO` logs the warning but returns early: the current projection stays `360`
instead of being forced to `NONE`. -/
theorem setProjection_invalid_cex :
    (setProjection "FOO" { initState with currentProjection := "360" }).warned
      = true
    ∧ (setProjection "FOO"
        { initState with currentProjection := "360" }).currentProjection
      = "360"
    ∧ "360" ≠ "NONE" := by
  exact ⟨rfl, rfl, by decide⟩

/-- C5, amended.  `setProjection` with an unrecognized identifier surfaces the
warning and builds no geometry, but leaves the current projection (and all
other state) unchanged rather than forcing it to `NONE`; it is
`changeProjection_` that forces `NONE` when an invalid value reaches it (and
it, too, builds nothing for it). -/
theorem setProjection_invalid_behavior (s : PlayerState) (p : String)
    (h : getInternalProjectionName p = none) :
    setProjection p s = { s with warned := true }
    ∧ ∃ s2, changeProjection_ p s = some s2
        ∧ s2.currentProjection = "NONE"
        ∧ s2.nextId = s.nextId
        ∧ ∀ m ∈ s2.scene, m ∈ s.scene := by
  have hnorm : normalizeProjection (some p) = "NONE" := by
    simp [normalizeProjection, h]
  constructor
  · unfold setProjection
    rw [h]
  · refine ⟨_, by rw [changeProjection_,
      changeProjectionRec_some_of_ne 2 (some p) s (by rw [hnorm]; decide)],
      ?_, ?_, ?_⟩
    · simp only [hnorm]
    · simp only [hnorm]
      rfl
    · intro m hm
      have hm2 : m ∈ (removeMovieScreens s).scene := by
        simp only [hnorm] at hm
        exact hm
      unfold removeMovieScreens at hm2
      simp only [List.mem_filter] at hm2
      exact hm2.1

/-- C5, witness. -/
theorem setProjection_invalid_witness :
    getInternalProjectionName "FOO" = none
    ∧ (setProjection "FOO" initState = { initState with warned := true }
      ∧ ∃ s2, changeProjection_ "FOO" initState = some s2
          ∧ s2.currentProjection = "NONE"
          ∧ s2.nextId = initState.nextId
          ∧ ∀ m ∈ s2.scene, m ∈ initState.scene) :=
  ⟨rfl, setProjection_invalid_behavior initState "FOO" rfl⟩

/-- With the invariant, the `changeProjection_` preamble leaves the scene
without any movie screen. -/
theorem removeMovieScreens_scene_nil (s : PlayerState) (h : goodState s) :
    (removeMovieScreens s).scene = [] := by
  unfold removeMovieScreens
  simp only
  rw [List.filter_eq_nil_iff]
  intro m hm
  rcases (h m hm).1 with hh | hh | hh <;> simp [hh]

/-- Removing the movie screens from a screenless scene keeps it screenless. -/
theorem removeMovieScreens_scene_nil_of_nil (t : PlayerState)
    (ht : t.scene = []) : (removeMovieScreens t).scene = [] := by
  unfold removeMovieScreens
  simp only
  rw [ht]
  rfl

/-- Properties of one non-`AUTO` rebuild step from a screenless scene: the
result is `some`, consistent, holds only freshly built meshes, and its
disposal logs are untouched. -/
theorem changeProjectionRec_props (fuel : ℕ) (q : Option String)
    (t : PlayerState) (hq : normalizeProjection q ≠ "AUTO")
    (ht2 : (removeMovieScreens t).scene = []) :
    ∃ u, changeProjectionRec fuel q t = some u
      ∧ goodState u
      ∧ (∀ m ∈ u.scene, t.nextId ≤ m.meshId)
      ∧ u.disposedGeometry = t.disposedGeometry
      ∧ u.disposedMaterial = t.disposedMaterial := by
  refine ⟨_, changeProjectionRec_some_of_ne fuel q t hq, ?_⟩
  cases hplan : buildPlanFor (normalizeProjection q) t.xrPresenting with
  | nothing =>
    refine ⟨?_, ?_, rfl, rfl⟩
    · intro m hm
      have hm2 : m ∈ (removeMovieScreens t).scene := hm
      rw [ht2] at hm2
      exact absurd hm2 (List.not_mem_nil m)
    · intro m hm
      have hm2 : m ∈ (removeMovieScreens t).scene := hm
      rw [ht2] at hm2
      exact absurd hm2 (List.not_mem_nil m)
  | mono sh =>
    constructor
    · intro m hm
      have hm2 : m ∈ (removeMovieScreens t).scene ++
          [(⟨(removeMovieScreens t).nextId, sh⟩ : Mesh)] := hm
      rw [ht2, List.nil_append, List.mem_singleton] at hm2
      subst hm2
      exact ⟨Or.inl rfl, Nat.lt_succ_self _⟩
    · refine ⟨?_, rfl, rfl⟩
      intro m hm
      have hm2 : m ∈ (removeMovieScreens t).scene ++
          [(⟨(removeMovieScreens t).nextId, sh⟩ : Mesh)] := hm
      rw [ht2, List.nil_append, List.mem_singleton] at hm2
      subst hm2
      exact le_refl _
  | stereo sh =>
    constructor
    · intro m hm
      have hm2 : m ∈ (removeMovieScreens t).scene ++
          [(⟨(removeMovieScreens t).nextId, sh⟩ : Mesh),
           (⟨(removeMovieScreens t).nextId + 1, sh⟩ : Mesh)] := hm
      rw [ht2, List.nil_append] at hm2
      rcases List.mem_cons.mp hm2 with hm3 | hm3
      · subst hm3
        exact ⟨Or.inr (Or.inl rfl), Nat.lt_succ_of_lt (Nat.lt_succ_self _)⟩
      · rw [List.mem_singleton] at hm3
        subst hm3
        exact ⟨Or.inr (Or.inr rfl), Nat.lt_succ_self _⟩
    · refine ⟨?_, rfl, rfl⟩
      intro m hm
      have hm2 : m ∈ (removeMovieScreens t).scene ++
          [(⟨(removeMovieScreens t).nextId, sh⟩ : Mesh),
           (⟨(removeMovieScreens t).nextId + 1, sh⟩ : Mesh)] := hm
      rw [ht2, List.nil_append] at hm2
      rcases List.mem_cons.mp hm2 with hm3 | hm3
      · subst hm3
        exact le_refl _
      · rw [List.mem_singleton] at hm3
        subst hm3
        exact Nat.le_succ_of_le (le_refl _)

/-- C2, counterexample.  Switching `360` then `180_MONO` from a fresh state
discards the first screen (mesh id 0 leaves the scene) yet both disposal logs
stay empty: `changeProjection_` never disposes geometry or material. -/
theorem changeProjection_no_dispose_cex :
    (changeProjection_ "360" initState).map (fun s => s.scene.map Mesh.meshId)
      = some [0]
    ∧ ((changeProjection_ "360" initState).bind
        (changeProjection_ "180_MONO")).map
        (fun s => (s.scene.map Mesh.meshId, s.disposedGeometry,
          s.disposedMaterial))
      = some ([1], [], []) := by
  exact ⟨rfl, rfl⟩

/-- C2, amended.  On a consistent state, every `changeProjection_` call
detaches all previously attached movie screens before the new build attaches
its surfaces — the resulting scene holds exactly the freshly built set, so
repeated switching never accumulates surfaces — but the old surfaces'
geometry and material are NOT disposed on this path (the disposal logs are
unchanged; disposal happens only on the XR branch of `setProjection`, and
there only for meshes whose `material.map` is the video texture, skipping the
EAC shader-material screens). -/
theorem changeProjection_detaches (s : PlayerState) (p : String)
    (h : goodState s) :
    ∃ s2, changeProjection_ p s = some s2
      ∧ goodState s2
      ∧ (∀ m ∈ s.scene, m ∉ s2.scene)
      ∧ (∀ m ∈ s2.scene, s.nextId ≤ m.meshId)
      ∧ s2.disposedGeometry = s.disposedGeometry
      ∧ s2.disposedMaterial = s.disposedMaterial := by
  have hrm : (removeMovieScreens s).scene = [] :=
    removeMovieScreens_scene_nil s h
  by_cases hp : normalizeProjection (some p) = "AUTO"
  · rw [changeProjection_, show (2 : ℕ) = 1 + 1 from rfl,
      changeProjectionRec_auto_step 1 (some p) s hp]
    obtain ⟨u, hu, hgood, hfresh, hdg, hdm⟩ :=
      changeProjectionRec_props 1 (autoArg s.mediainfo) (removeMovieScreens s)
        (normalize_autoArg_ne_auto s.mediainfo)
        (removeMovieScreens_scene_nil_of_nil _ hrm)
    refine ⟨u, hu, hgood, ?_, hfresh, hdg, hdm⟩
    intro m hm hmem2
    have hlt := (h m hm).2
    have hge := hfresh m hmem2
    have hnx : (removeMovieScreens s).nextId = s.nextId := rfl
    omega
  · rw [changeProjection_]
    obtain ⟨u, hu, hgood, hfresh, hdg, hdm⟩ :=
      changeProjectionRec_props 2 (some p) s hp hrm
    refine ⟨u, hu, hgood, ?_, hfresh, hdg, hdm⟩
    intro m hm hmem2
    have hlt := (h m hm).2
    have hge := hfresh m hmem2
    omega

/-- C2, witness: switching the one-screen `360` state to `180_MONO`. -/
theorem changeProjection_detaches_witness :
    goodState afterBuild360
    ∧ ∃ s2, changeProjection_ "180_MONO" afterBuild360 = some s2
        ∧ goodState s2
        ∧ (∀ m ∈ afterBuild360.scene, m ∉ s2.scene)
        ∧ (∀ m ∈ s2.scene, afterBuild360.nextId ≤ m.meshId)
        ∧ s2.disposedGeometry = afterBuild360.disposedGeometry
        ∧ s2.disposedMaterial = afterBuild360.disposedMaterial :=
  have hgood : goodState afterBuild360 := by
    intro m hm
    simp only [afterBuild360, List.mem_singleton] at hm
    subst hm
    exact ⟨Or.inl rfl, Nat.zero_lt_one⟩
  ⟨hgood, changeProjection_detaches afterBuild360 "180_MONO" hgood⟩

/-- For heights above 8 texels, the texel margin `2/h` is positive and below
a quarter of a face. -/
theorem two_div_lt (h : ℚ) (hh : 8 < h) : 0 < 2 / h ∧ 2 / h < 1 / 4 := by
  have h0 : (0 : ℚ) < h := by linarith
  constructor
  · positivity
  · rw [div_lt_div_iff₀ h0 (by norm_num : (0 : ℚ) < 4)]
    linarith

/-- A vertex on the lowest edge of a face moves up by exactly
`contCorrect / height` (and is then out of epsilon range of the highest
edge, so the second branch leaves it alone). -/
theorem adjustVertex_low (h lo hi : ℚ) (hh : 8 < h) (hd : hi = lo + 1 / 2)
    (v : Vec2) (hv : v.y = lo) :
    (adjustVertex h lo hi v).y = v.y + contCorrect / h := by
  obtain ⟨hpos, hlt⟩ := two_div_lt h hh
  unfold adjustVertex
  simp only [contCorrect, jsEpsilon]
  rw [hv, sub_self, abs_zero,
    if_pos (by norm_num : (0 : ℚ) < 1 / 2 ^ 52), hd]
  rw [if_neg]
  have e1 : lo + 2 / h - (lo + 1 / 2) = -(1 / 2 - 2 / h) := by ring
  rw [e1, abs_neg, abs_of_pos (by linarith : (0 : ℚ) < 1 / 2 - 2 / h)]
  push_neg
  have heps : (1 : ℚ) / 2 ^ 52 ≤ 1 / 4 := by norm_num
  linarith

/-- A vertex on the highest edge of a face is untouched by the first branch
and moved down by exactly `contCorrect / height` by the second. -/
theorem adjustVertex_high (h lo hi : ℚ) (_hh : 8 < h) (hd : hi = lo + 1 / 2)
    (v : Vec2) (hv : v.y = hi) :
    (adjustVertex h lo hi v).y = v.y - contCorrect / h := by
  unfold adjustVertex
  simp only [contCorrect, jsEpsilon]
  rw [hv, hd]
  have e1 : lo + 1 / 2 - lo = 1 / 2 := by ring
  rw [e1, abs_of_pos (by norm_num : (0 : ℚ) < 1 / 2),
    if_neg (by norm_num : ¬((1 : ℚ) / 2 < 1 / 2 ^ 52)),
    sub_self, abs_zero,
    if_pos (by norm_num : (0 : ℚ) < 1 / 2 ^ 52)]

/-- Combined per-vertex statement of the continuity correction for a face
whose two edges are `lo` and `lo + 1/2` (every EAC face): each vertex lies on
one of the two edges and is moved by exactly `contCorrect / h` — up on the
lowest edge, down on the highest. -/
theorem adjustVertex_edge (h lo hi : ℚ) (hh : 8 < h) (hd : hi = lo + 1 / 2)
    (v : Vec2) (hv : v.y = lo ∨ v.y = hi) :
    (v.y = lo ∨ v.y = hi)
    ∧ (adjustVertex h lo hi v).y
        = if v.y = lo then v.y + contCorrect / h
          else v.y - contCorrect / h := by
  refine ⟨hv, ?_⟩
  rcases hv with hv | hv
  · rw [if_pos hv]
    exact adjustVertex_low h lo hi hh hd v hv
  · by_cases hlo2 : v.y = lo
    · exfalso
      rw [hlo2] at hv
      rw [hd] at hv
      linarith [hv]
    · rw [if_neg hlo2]
      exact adjustVertex_high h lo hi hh hd v hv

/-- C9, confirmed.  In an EAC build, every vertex of every cube face's UV quad
lies on the face's lowest-V or highest-V edge and is inset in V by exactly
`contCorrect / frameHeight` — moved up on the lowest edge and down on the
highest — before the UVs are assigned to the geometry. -/
theorem eac_continuity_inset (h : ℚ) (hh : 8 < h) :
    ∀ face ∈ eacFaces,
      List.Forall₂ (fun v v2 : Vec2 =>
        (v.y = lowYOf face ∨ v.y = highYOf face)
        ∧ v2.y = (if v.y = lowYOf face then v.y + contCorrect / h
                  else v.y - contCorrect / h))
        face (adjustFace h face) := by
  intro face hface
  simp only [eacFaces, List.mem_cons, List.not_mem_nil, or_false] at hface
  rcases hface with rfl | rfl | rfl | rfl | rfl | rfl
  · have hlo : lowYOf eacRight = 1 / 2 := by
      norm_num [lowYOf, eacRight, List.foldl_cons, List.foldl_nil]
    have hhi : highYOf eacRight = 1 := by
      norm_num [highYOf, eacRight, List.foldl_cons, List.foldl_nil]
    have hall : ∀ v ∈ eacRight, v.y = (1 : ℚ) / 2 ∨ v.y = 1 := by
      intro v hv
      simp only [eacRight, List.mem_cons, List.not_mem_nil, or_false] at hv
      rcases hv with rfl | rfl | rfl | rfl <;> norm_num
    rw [adjustFace, hlo, hhi, List.forall₂_map_right_iff, List.forall₂_same]
    intro v hv
    exact adjustVertex_edge h (1 / 2) 1 hh (by norm_num) v (hall v hv)
  · have hlo : lowYOf eacFront = 1 / 2 := by
      norm_num [lowYOf, eacFront, List.foldl_cons, List.foldl_nil]
    have hhi : highYOf eacFront = 1 := by
      norm_num [highYOf, eacFront, List.foldl_cons, List.foldl_nil]
    have hall : ∀ v ∈ eacFront, v.y = (1 : ℚ) / 2 ∨ v.y = 1 := by
      intro v hv
      simp only [eacFront, List.mem_cons, List.not_mem_nil, or_false] at hv
      rcases hv with rfl | rfl | rfl | rfl <;> norm_num
    rw [adjustFace, hlo, hhi, List.forall₂_map_right_iff, List.forall₂_same]
    intro v hv
    exact adjustVertex_edge h (1 / 2) 1 hh (by norm_num) v (hall v hv)
  · have hlo : lowYOf eacLeft = 1 / 2 := by
      norm_num [lowYOf, eacLeft, List.foldl_cons, List.foldl_nil]
    have hhi : highYOf eacLeft = 1 := by
      norm_num [highYOf, eacLeft, List.foldl_cons, List.foldl_nil]
    have hall : ∀ v ∈ eacLeft, v.y = (1 : ℚ) / 2 ∨ v.y = 1 := by
      intro v hv
      simp only [eacLeft, List.mem_cons, List.not_mem_nil, or_false] at hv
      rcases hv with rfl | rfl | rfl | rfl <;> norm_num
    rw [adjustFace, hlo, hhi, List.forall₂_map_right_iff, List.forall₂_same]
    intro v hv
    exact adjustVertex_edge h (1 / 2) 1 hh (by norm_num) v (hall v hv)
  · have hlo : lowYOf eacBottom = 0 := by
      norm_num [lowYOf, eacBottom, List.foldl_cons, List.foldl_nil]
    have hhi : highYOf eacBottom = 1 / 2 := by
      norm_num [highYOf, eacBottom, List.foldl_cons, List.foldl_nil]
    have hall : ∀ v ∈ eacBottom, v.y = (0 : ℚ) ∨ v.y = 1 / 2 := by
      intro v hv
      simp only [eacBottom, List.mem_cons, List.not_mem_nil, or_false] at hv
      rcases hv with rfl | rfl | rfl | rfl <;> norm_num
    rw [adjustFace, hlo, hhi, List.forall₂_map_right_iff, List.forall₂_same]
    intro v hv
    exact adjustVertex_edge h 0 (1 / 2) hh (by norm_num) v (hall v hv)
  · have hlo : lowYOf eacBack = 0 := by
      norm_num [lowYOf, eacBack, List.foldl_cons, List.foldl_nil]
    have hhi : highYOf eacBack = 1 / 2 := by
      norm_num [highYOf, eacBack, List.foldl_cons, List.foldl_nil]
    have hall : ∀ v ∈ eacBack, v.y = (0 : ℚ) ∨ v.y = 1 / 2 := by
      intro v hv
      simp only [eacBack, List.mem_cons, List.not_mem_nil, or_false] at hv
      rcases hv with rfl | rfl | rfl | rfl <;> norm_num
    rw [adjustFace, hlo, hhi, List.forall₂_map_right_iff, List.forall₂_same]
    intro v hv
    exact adjustVertex_edge h 0 (1 / 2) hh (by norm_num) v (hall v hv)
  · have hlo : lowYOf eacTop = 0 := by
      norm_num [lowYOf, eacTop, List.foldl_cons, List.foldl_nil]
    have hhi : highYOf eacTop = 1 / 2 := by
      norm_num [highYOf, eacTop, List.foldl_cons, List.foldl_nil]
    have hall : ∀ v ∈ eacTop, v.y = (0 : ℚ) ∨ v.y = 1 / 2 := by
      intro v hv
      simp only [eacTop, List.mem_cons, List.not_mem_nil, or_false] at hv
      rcases hv with rfl | rfl | rfl | rfl <;> norm_num
    rw [adjustFace, hlo, hhi, List.forall₂_map_right_iff, List.forall₂_same]
    intro v hv
    exact adjustVertex_edge h 0 (1 / 2) hh (by norm_num) v (hall v hv)

/-- C9, witness: with a 2160-pixel-high source frame the top/bottom-edge inset
is exactly `2/2160` in normalized V (shown concretely on the `right` face). -/
theorem eac_continuity_inset_witness :
    (8 : ℚ) < 2160
    ∧ List.Forall₂ (fun v v2 : Vec2 =>
        (v.y = lowYOf eacRight ∨ v.y = highYOf eacRight)
        ∧ v2.y = (if v.y = lowYOf eacRight then v.y + contCorrect / 2160
                  else v.y - contCorrect / 2160))
        eacRight (adjustFace 2160 eacRight)
    ∧ contCorrect / 2160 = 2 / 2160
    ∧ (adjustFace 2160 eacRight).map Vec2.y
        = [1 / 2 + 2 / 2160, 1 / 2 + 2 / 2160, 1 - 2 / 2160, 1 - 2 / 2160] :=
  ⟨by norm_num,
   eac_continuity_inset 2160 (by norm_num) eacRight (by simp [eacFaces]),
   rfl,
   by
    have hlo : lowYOf eacRight = 1 / 2 := by
      norm_num [lowYOf, eacRight, List.foldl_cons, List.foldl_nil]
    have hhi : highYOf eacRight = 1 := by
      norm_num [highYOf, eacRight, List.foldl_cons, List.foldl_nil]
    simp only [adjustFace, hlo, hhi]
    simp only [eacRight, List.map_cons, List.map_nil, adjustVertex,
      contCorrect, jsEpsilon]
    norm_num [abs_of_pos, abs_of_nonneg]⟩

/-! ### JavaScript-arithmetic computation lemmas -/

/-- Addition of finite JavaScript numbers. -/
theorem num_add (a b : ℚ) : JSNum.num a + JSNum.num b = JSNum.num (a + b) := rfl

/-- Subtraction of finite JavaScript numbers. -/
theorem num_sub (a b : ℚ) : JSNum.num a - JSNum.num b = JSNum.num (a - b) := by
  show JSNum.add (JSNum.num a) (JSNum.neg (JSNum.num b)) = _
  rw [show JSNum.neg (JSNum.num b) = JSNum.num (-b) from rfl,
    show JSNum.add (JSNum.num a) (JSNum.num (-b)) = JSNum.num (a + -b) from rfl,
    ← sub_eq_add_neg]

/-- Multiplication of finite JavaScript numbers. -/
theorem num_mul (a b : ℚ) : JSNum.num a * JSNum.num b = JSNum.num (a * b) := rfl

/-- Division of finite JavaScript numbers with a nonzero divisor. -/
theorem num_div (a b : ℚ) (hb : b ≠ 0) :
    JSNum.num a / JSNum.num b = JSNum.num (a / b) := by
  show JSNum.div _ _ = _
  simp [JSNum.div, hb]

/-- JavaScript `x / 0 = Infinity` for positive finite `x`. -/
theorem num_div_zero_pos (a : ℚ) (ha : 0 < a) :
    JSNum.num a / JSNum.num 0 = JSNum.posInf := by
  show JSNum.div _ _ = _
  simp [JSNum.div, ha]

/-- JavaScript `0 / 0 = NaN`. -/
theorem num_div_zero_zero : JSNum.num 0 / JSNum.num 0 = JSNum.nan := by
  show JSNum.div _ _ = _
  simp [JSNum.div]

/-- Adding `Infinity` to a finite number. -/
theorem num_add_posInf (b : ℚ) :
    JSNum.num b + JSNum.posInf = JSNum.posInf := rfl

/-- Subtracting a finite number from `Infinity`. -/
theorem posInf_sub_num (b : ℚ) :
    JSNum.posInf - JSNum.num b = JSNum.posInf := rfl

/-- `Math.abs` on finite JavaScript numbers. -/
theorem absJS_num (a : ℚ) : JSNum.absJS (JSNum.num a) = JSNum.num |a| := rfl

/-- `Math.abs Infinity`. -/
theorem absJS_posInf : JSNum.absJS JSNum.posInf = JSNum.posInf := rfl

/-- `<` on finite JavaScript numbers. -/
theorem ltb_num (a b : ℚ) :
    JSNum.ltb (JSNum.num a) (JSNum.num b) = decide (a < b) := rfl

/-- `Infinity < x` is false. -/
theorem posInf_ltb (x : JSNum) : JSNum.ltb JSNum.posInf x = false := by
  cases x <;> rfl

/-- `x < NaN` is false. -/
theorem ltb_nan (x : JSNum) : JSNum.ltb x JSNum.nan = false := by
  cases x <;> rfl

/-- `x * NaN = NaN`. -/
theorem mul_nan (x : JSNum) : x * JSNum.nan = JSNum.nan := by
  show JSNum.mul _ _ = _
  cases x <;> rfl

/-- `NaN * x = NaN`. -/
theorem nan_mul (x : JSNum) : JSNum.nan * x = JSNum.nan := by
  show JSNum.mul _ _ = _
  cases x <;> rfl

/-- `NaN + x = NaN`. -/
theorem nan_add (x : JSNum) : JSNum.nan + x = JSNum.nan := by
  show JSNum.add _ _ = _
  cases x <;> rfl

/-- The JavaScript `lowY` fold over finitely-valued UV corners mirrors the
rational fold. -/
theorem lowY_fold_map (l : List Vec2) (acc : ℚ) :
    List.foldl (fun a v => if JSNum.ltb v.2 a then v.2 else a) (JSNum.num acc)
      (l.map (fun v => (JSNum.num v.x, JSNum.num v.y)))
    = JSNum.num (List.foldl (fun a v => if v.y < a then v.y else a) acc l) := by
  induction l generalizing acc with
  | nil => rfl
  | cons v l ih =>
    simp only [List.map_cons, List.foldl_cons, ltb_num, decide_eq_true_eq]
    by_cases hlt : v.y < acc
    · rw [if_pos hlt, if_pos hlt, ih]
    · rw [if_neg hlt, if_neg hlt, ih]

/-- The JavaScript `highY` fold over finitely-valued UV corners mirrors the
rational fold. -/
theorem highY_fold_map (l : List Vec2) (acc : ℚ) :
    List.foldl (fun a v => if JSNum.ltb a v.2 then v.2 else a) (JSNum.num acc)
      (l.map (fun v => (JSNum.num v.x, JSNum.num v.y)))
    = JSNum.num (List.foldl (fun a v => if a < v.y then v.y else a) acc l) := by
  induction l generalizing acc with
  | nil => rfl
  | cons v l ih =>
    simp only [List.map_cons, List.foldl_cons, ltb_num, decide_eq_true_eq]
    by_cases hlt : acc < v.y
    · rw [if_pos hlt, if_pos hlt, ih]
    · rw [if_neg hlt, if_neg hlt, ih]

/-- `lowYJS` of a finitely-valued face equals `lowYOf` of its rational
original. -/
theorem lowYJS_map (l : List Vec2) :
    lowYJS (l.map (fun v => (JSNum.num v.x, JSNum.num v.y)))
      = JSNum.num (lowYOf l) :=
  lowY_fold_map l 1

/-- `highYJS` of a finitely-valued face equals `highYOf` of its rational
original. -/
theorem highYJS_map (l : List Vec2) :
    highYJS (l.map (fun v => (JSNum.num v.x, JSNum.num v.y)))
      = JSNum.num (highYOf l) :=
  highY_fold_map l 0

/-- C10, counterexample.  The UV math has no divide-by-zero guard: with a
zero-height source frame, the first vertex of the EAC `right` face quad is
adjusted to `V = Infinity` and `U = NaN` (the `contCorrect / height` division
blows up), and the `SBS_MONO` aspect-fit at zero width and height yields a NaN
plane width — none of these are well-defined UV or size values. -/
theorem uv_divide_by_zero_cex :
    (JSNum.num 0, JSNum.num (1 / 2)) ∈ eacRightJS
    ∧ lowYJS eacRightJS = JSNum.num (1 / 2)
    ∧ highYJS eacRightJS = JSNum.num 1
    ∧ (adjustVertexJS (JSNum.num 0) (JSNum.num (1 / 2)) (JSNum.num 1)
        (JSNum.num 0, JSNum.num (1 / 2))).2 = JSNum.posInf
    ∧ (adjustVertexJS (JSNum.num 0) (JSNum.num (1 / 2)) (JSNum.num 1)
        (JSNum.num 0, JSNum.num (1 / 2))).1 = JSNum.nan
    ∧ JSNum.posInf.isFinite = false
    ∧ JSNum.nan.isFinite = false
    ∧ (sbsPlaneSize (JSNum.num 0) (JSNum.num 0) (JSNum.num 1)
        (JSNum.num 1)).1 = JSNum.nan := by
  refine ⟨?_, ?_, ?_, ?_, ?_, rfl, rfl, ?_⟩
  · simp [eacRightJS, eacRight]
  · rw [eacRightJS, lowYJS_map]
    norm_num [lowYOf, eacRight, List.foldl_cons, List.foldl_nil]
  · rw [eacRightJS, highYJS_map]
    norm_num [highYOf, eacRight, List.foldl_cons, List.foldl_nil]
  · norm_num [adjustVertexJS, contCorrect, jsEpsilon, num_sub, absJS_num,
      ltb_num, num_div_zero_pos, num_add_posInf, posInf_sub_num, absJS_posInf,
      posInf_ltb]
  · norm_num [adjustVertexJS, contCorrect, jsEpsilon, num_sub, absJS_num,
      ltb_num, num_div_zero_pos, num_add_posInf, posInf_sub_num, absJS_posInf,
      posInf_ltb, num_mul, num_div_zero_zero, nan_mul, nan_add]
  · norm_num [sbsPlaneSize, num_div, num_div_zero_zero, num_mul, ltb_nan,
      mul_nan]

/-- Adjusting a finitely-valued vertex with a nonzero finite height always
yields finite UV values (both branches of each epsilon test are finite). -/
theorem adjustVertexJS_finite (h lo hi a b : ℚ) (hne : h ≠ 0) :
    ((adjustVertexJS (JSNum.num h) (JSNum.num lo) (JSNum.num hi)
        (JSNum.num a, JSNum.num b)).1.isFinite = true)
    ∧ ((adjustVertexJS (JSNum.num h) (JSNum.num lo) (JSNum.num hi)
        (JSNum.num a, JSNum.num b)).2.isFinite = true) := by
  unfold adjustVertexJS
  simp only [num_mul, num_sub, num_div _ _ hne, num_add, absJS_num, ltb_num,
    decide_eq_true_eq]
  refine ⟨rfl, ?_⟩
  split_ifs <;> rfl

/-- C10, amended.  The UV computation is total — JavaScript arithmetic never
raises, so no frame dimension can crash it — and for every nonzero finite
frame height (including negative heights) the EAC continuity-correction UVs
and the `SBS_MONO` plane size are finite; but there is no divide-by-zero
guard: a zero height (or zero width and height for `SBS_MONO`) produces
non-finite Infinity/NaN values, as the counterexample shows. -/
theorem uv_math_total (w h tf asp : ℚ) (hne : h ≠ 0) (htf : 0 < tf)
    (hasp : 0 < asp) :
    (∀ face ∈ eacFacesJS, ∀ v ∈ adjustFaceJS (JSNum.num h) face,
      v.1.isFinite = true ∧ v.2.isFinite = true)
    ∧ ((sbsPlaneSize (JSNum.num w) (JSNum.num h) (JSNum.num tf)
        (JSNum.num asp)).1.isFinite = true
      ∧ (sbsPlaneSize (JSNum.num w) (JSNum.num h) (JSNum.num tf)
          (JSNum.num asp)).2.isFinite = true) := by
  constructor
  · intro face hface
    rcases List.mem_map.mp hface with ⟨fq, hfq, rfl⟩
    intro v hv
    rw [adjustFaceJS] at hv
    rcases List.mem_map.mp hv with ⟨u, hu, rfl⟩
    rcases List.mem_map.mp hu with ⟨u0, hu0, rfl⟩
    rw [lowYJS_map, highYJS_map]
    exact adjustVertexJS_finite h (lowYOf fq) (highYOf fq) u0.x u0.y hne
  · unfold sbsPlaneSize
    have h2 : (2 : ℚ) ≠ 0 := by norm_num
    have hvp : (2 * 3 * tf : ℚ) ≠ 0 := by positivity
    simp only [num_mul, num_div _ _ h2, num_div _ _ hne, num_div _ _ hvp,
      ltb_num, decide_eq_true_eq]
    split_ifs with hcmp
    · have hva : 2 * 3 * tf * asp / (2 * 3 * tf) = asp :=
        mul_div_cancel_left₀ asp hvp
      rw [hva] at hcmp
      have hpos : (0 : ℚ) < w / 2 / h := lt_trans hasp hcmp
      rw [num_div _ _ (ne_of_gt hpos)]
      exact ⟨rfl, rfl⟩
    · exact ⟨rfl, rfl⟩

/-- C10, witness: a negative-height, negative-width frame still yields finite
values. -/
theorem uv_math_total_witness :
    ((-5 : ℚ) ≠ 0 ∧ (0 : ℚ) < 1 ∧ (0 : ℚ) < 1)
    ∧ ((∀ face ∈ eacFacesJS, ∀ v ∈ adjustFaceJS (JSNum.num (-5)) face,
        v.1.isFinite = true ∧ v.2.isFinite = true)
      ∧ ((sbsPlaneSize (JSNum.num (-10)) (JSNum.num (-5)) (JSNum.num 1)
          (JSNum.num 1)).1.isFinite = true
        ∧ (sbsPlaneSize (JSNum.num (-10)) (JSNum.num (-5)) (JSNum.num 1)
            (JSNum.num 1)).2.isFinite = true)) :=
  ⟨⟨by norm_num, by norm_num, by norm_num⟩,
   uv_math_total (-10) (-5) 1 1 (by norm_num) (by norm_num) (by norm_num)⟩

end VideojsVR
